import Mathlib

/-!
Verification of the BulWise request-orchestration and cost-governance
pipeline, shallowly embedded from the Python sources of the repository.

Conventions of the embedding:
* Python floats that hold money amounts and cost rates are modelled as
  exact rationals (`ℚ`); token counts are `ℕ`; wall-clock instants are
  integers measured in seconds.
* The on-disk JSON file `cost_tracking.json` is modelled as
  `Option LedgerRecord` (`none` means the file does not exist); a
  function that writes the file returns the new file state, a function
  that only reads it leaves the file-state component unchanged.
* The current wall-clock month (`datetime.now().strftime` with a
  year-month pattern) is passed in as an explicit `nowMonth : String`
  argument.
* Strings keep the code-point semantics of Python at the granularity
  the claims need: `String.length` models `len`, and the default
  `str.strip` is modelled by dropping whitespace characters from both
  ends of the character list.
-/

namespace App

/-- One entry of the `requests` array of `cost_tracking.json`
(source: `log_request` in `app.py`). -/
structure RequestLog where
  timestamp : String
  input_tokens : ℕ
  output_tokens : ℕ
  cost : ℚ
  deriving Repr, DecidableEq

/-- The persisted cost-tracking record: fields `month`, `total_cost`,
`requests` of the JSON object handled by `load_cost_data` /
`save_cost_data` in `app.py`. -/
structure LedgerRecord where
  month : String
  total_cost : ℚ
  requests : List RequestLog
  deriving Repr, DecidableEq

/-- The state of the file `COST_TRACKING_FILE`: `none` when the file
does not exist. -/
abbrev FileState := Option LedgerRecord

/-- `MONTHLY_BUDGET_CAP = 50.00` from `app.py`. -/
def MONTHLY_BUDGET_CAP : ℚ := 50

/-- `COST_PER_1K_INPUT_TOKENS = 0.003` from `app.py`. -/
def COST_PER_1K_INPUT_TOKENS : ℚ := 3 / 1000

/-- `COST_PER_1K_OUTPUT_TOKENS = 0.015` from `app.py`. -/
def COST_PER_1K_OUTPUT_TOKENS : ℚ := 15 / 1000

/-- `MAX_QUERY_LENGTH = 2000` from `app.py`. -/
def MAX_QUERY_LENGTH : ℕ := 2000

/-- `MAX_CONTEXT_LENGTH = 500` from `app.py`. -/
def MAX_CONTEXT_LENGTH : ℕ := 500

/-- `load_cost_data` from `app.py`: if the file does not exist, or the
stored month differs from the current month, return a fresh zeroed
record for the current month; otherwise return the stored record.
The function only reads the file, so the file state is unchanged by it
(callers that need the post-read file state keep the `FileState`
argument they passed in). -/
def load_cost_data (fs : FileState) (nowMonth : String) : LedgerRecord :=
  match fs with
  | none => { month := nowMonth, total_cost := 0, requests := [] }
  | some data =>
      if data.month ≠ nowMonth then
        { month := nowMonth, total_cost := 0, requests := [] }
      else
        data

/-- `save_cost_data` from `app.py`: writes the record to the file; the
resulting file state holds exactly that record. -/
def save_cost_data (data : LedgerRecord) : FileState :=
  some data

/-- `calculate_cost` from `app.py`:
`(input_tokens / 1000) * COST_PER_1K_INPUT_TOKENS +
 (output_tokens / 1000) * COST_PER_1K_OUTPUT_TOKENS`
with Python true division modelled by division in `ℚ`. -/
def calculate_cost (input_tokens output_tokens : ℕ) : ℚ :=
  (input_tokens / 1000 : ℚ) * COST_PER_1K_INPUT_TOKENS
    + (output_tokens / 1000 : ℚ) * COST_PER_1K_OUTPUT_TOKENS

/-- `check_budget` from `app.py`:
`load_cost_data()["total_cost"] < MONTHLY_BUDGET_CAP` (strict). -/
def check_budget (fs : FileState) (nowMonth : String) : Bool :=
  decide ((load_cost_data fs nowMonth).total_cost < MONTHLY_BUDGET_CAP)

/-- `log_request` from `app.py`: loads the (possibly rolled-over)
record, appends one request-log entry, adds `cost` to `total_cost`,
saves, and returns the updated total together with the new file
state. -/
def log_request (fs : FileState) (nowMonth : String)
    (input_tokens output_tokens : ℕ) (cost : ℚ) (ts : String) :
    ℚ × FileState :=
  let data := load_cost_data fs nowMonth
  let request_log : RequestLog :=
    { timestamp := ts, input_tokens := input_tokens,
      output_tokens := output_tokens, cost := cost }
  let data' : LedgerRecord :=
    { data with requests := data.requests ++ [request_log],
                total_cost := data.total_cost + cost }
  (data'.total_cost, save_cost_data data')

/-- The full effect of one call of `load_cost_data` on the world: the
record it returns together with the file state after the call. The
source opens `COST_TRACKING_FILE` in read mode only and never writes
in this function, so the file state after the call is exactly the file
state before it. -/
def load_cost_data_op (fs : FileState) (nowMonth : String) :
    LedgerRecord × FileState :=
  (load_cost_data fs nowMonth, fs)

/-- Recording a sequence of requests within one month: fold
`log_request` over the list, threading the file state. Each list
element is `(input_tokens, output_tokens, cost, timestamp)`. -/
def recordSeq (fs : FileState) (nowMonth : String)
    (reqs : List (ℕ × ℕ × ℚ × String)) : FileState :=
  reqs.foldl
    (fun s q => (log_request s nowMonth q.1 q.2.1 q.2.2.1 q.2.2.2).2) fs

/-- The JSON body of a generate request as `validate_input` sees it:
`query` (with `data.get` defaulting a missing key to the empty string)
and the `context` mapping, whose values relevant to validation are
strings. -/
structure AdvisoryRequest where
  query : String
  context : List (String × String)
  deriving Repr, DecidableEq

/-- The default `str.strip` of Python: remove whitespace characters from
both ends of the string. -/
def pyStrip (s : String) : String :=
  ⟨((s.data.dropWhile Char.isWhitespace).reverse.dropWhile
      Char.isWhitespace).reverse⟩

/-- `validate_input` from `app.py`: rejects a query longer than
`MAX_QUERY_LENGTH`; rejects the first context field (in iteration
order) whose string value is longer than `MAX_CONTEXT_LENGTH`; rejects
a query whose `strip()` is empty; otherwise accepts with no reason. -/
def validate_input (d : AdvisoryRequest) : Bool × Option String :=
  if d.query.length > MAX_QUERY_LENGTH then
    (false, some "Query too long. Maximum 2000 characters allowed.")
  else
    match d.context.find? (fun kv => decide (kv.2.length > MAX_CONTEXT_LENGTH)) with
    | some kv =>
        (false, some ("Context field " ++ kv.1 ++ " too long. Maximum 500 characters allowed."))
    | none =>
        if pyStrip d.query = "" then
          (false, some "Query cannot be empty.")
        else
          (true, none)

/-- Token usage reported by the provider (`message.usage`). -/
structure Usage where
  input_tokens : ℕ
  output_tokens : ℕ
  deriving Repr, DecidableEq

/-- A provider reply: the list of text content blocks and the token
usage. `message.content[0].text` in the handler raises an `IndexError`
exactly when the content list is empty. -/
structure Message where
  content : List String
  usage : Usage
  deriving Repr, DecidableEq

/-- The outcome of the single `client.messages.create` call made by
`generate_report` in `app.py`; failures are the exception classes the
handler distinguishes. -/
inductive ProviderOutcome where
  | success (m : Message)
  | rateLimitError
  | apiError (msg : String)
  deriving Repr, DecidableEq

/-- The response the `/api/generate` handler returns, by the `return`
site producing it. -/
inductive GenResponse where
  | validationError (msg : String)
  | budgetError
  | ok (report : String) (cost : ℚ) (month_total : ℚ)
  | rateLimited
  | serviceError (msg : String)
  | unexpectedError
  deriving Repr, DecidableEq

/-- HTTP status code of each response of the handler. -/
def GenResponse.status : GenResponse → ℕ
  | .validationError _ => 400
  | .budgetError => 503
  | .ok _ _ _ => 200
  | .rateLimited => 429
  | .serviceError _ => 500
  | .unexpectedError => 500

/-- `generate_report` from `app.py` (the `/api/generate` handler), as a
function of the request body, the cost-tracking file state, the current
month, and the outcome the provider call would have. It returns the
response, the file state after the handler ran, and whether the
provider was invoked. The handler: validates; checks the budget; calls
the provider; extracts `message.content[0].text` (an empty content list
raises and lands in the generic `except Exception` branch); computes
the cost and logs it; and answers 200. -/
def generate_report (d : AdvisoryRequest) (fs : FileState)
    (nowMonth : String) (provider : ProviderOutcome) (ts : String) :
    GenResponse × FileState × Bool :=
  let v := validate_input d
  if v.1 = false then
    (.validationError ((v.2).getD ""), fs, false)
  else if check_budget fs nowMonth = false then
    (.budgetError, fs, false)
  else
    match provider with
    | .rateLimitError => (.rateLimited, fs, true)
    | .apiError msg => (.serviceError msg, fs, true)
    | .success m =>
        match m.content with
        | [] => (.unexpectedError, fs, true)
        | report_content :: _ =>
            let cost := calculate_cost m.usage.input_tokens m.usage.output_tokens
            let r := log_request fs nowMonth m.usage.input_tokens
              m.usage.output_tokens cost ts
            (.ok report_content cost r.1, r.2, true)

end App

namespace Bulwise

/-!
Model of the rate limiter, the retry loop, and the report-quality
validator of `bulwise_advisory_only.py`. Wall-clock instants (`datetime`
values) are integers in seconds; `timedelta(days=30)` is `30 * 86400`
seconds. The Streamlit session entry `st.session_state.usage_data` is
modelled as `Option UsageData` (`none` before first use); the
`browser_id` and `first_use` fields play no role in any claim and are
omitted.
-/

/-- The `usage_data` session record: `count` and `reset_date`
(source: `get_usage_data`). -/
structure UsageData where
  count : ℕ
  reset_date : ℤ
  deriving Repr, DecidableEq

/-- `timedelta(days=30)` in seconds. -/
def WINDOW : ℤ := 30 * 86400

/-- `MAX_QUERIES_PER_MONTH = 3` from `check_rate_limit`. -/
def MAX_QUERIES_PER_MONTH : ℕ := 3

/-- `get_usage_data` from `bulwise_advisory_only.py`: initialise the
session record on first use (count 0, reset date now); then, if `now`
is past `reset_date + 30 days`, zero the count and restart the window
at `now`; store and return the record. -/
def get_usage_data (now : ℤ) (s : Option UsageData) :
    UsageData × Option UsageData :=
  let usage := s.getD { count := 0, reset_date := now }
  if now > usage.reset_date + WINDOW then
    let usage' : UsageData := { count := 0, reset_date := now }
    (usage', some usage')
  else
    (usage, some usage)

/-- `increment_usage` from `bulwise_advisory_only.py`: read (with the
rollover check of `get_usage_data`), add one to the count, store, and
return the new count. -/
def increment_usage (now : ℤ) (s : Option UsageData) :
    ℕ × Option UsageData :=
  let r := get_usage_data now s
  let usage' : UsageData := { r.1 with count := r.1.count + 1 }
  (usage'.count, some usage')

/-- `check_rate_limit` from `bulwise_advisory_only.py`: returns
`(allowed, count, next_reset)` where `allowed` is
`count < MAX_QUERIES_PER_MONTH` and `next_reset` is
`reset_date + 30 days`, after the rollover check of
`get_usage_data`. -/
def check_rate_limit (now : ℤ) (s : Option UsageData) :
    (Bool × ℕ × ℤ) × Option UsageData :=
  let r := get_usage_data now s
  ((decide (r.1.count < MAX_QUERIES_PER_MONTH), r.1.count,
    r.1.reset_date + WINDOW), r.2)

/-- One advisory request against the rate limiter, as the app drives
it: `check_rate_limit` first; when allowed, the generation runs and
`increment_usage` is called; when denied, nothing is incremented.
Returns whether the request was allowed and the session state after. -/
def rateLimitStep (now : ℤ) (s : Option UsageData) :
    Bool × Option UsageData :=
  let c := check_rate_limit now s
  if c.1.1 then
    (true, (increment_usage now c.2).2)
  else
    (false, c.2)

/-- A sequence of advisory requests against the rate limiter, one per
listed wall-clock instant, each driven as in `rateLimitStep`; returns
the allowed/denied flag of every request in order, and the final
session state. -/
def rateLimitRun : List ℤ → Option UsageData → List Bool × Option UsageData
  | [], s => ([], s)
  | t :: ts, s =>
      let r := rateLimitStep t s
      let rest := rateLimitRun ts r.2
      (r.1 :: rest.1, rest.2)

/-- The outcome of one `client.messages.create` attempt inside the
STEP 3 retry loop. The handler tests
`"overloaded" in str(e).lower()` on an `anthropic.APIError`; that
substring test is carried here as the `overloaded` flag of the
error. -/
inductive AttemptOutcome where
  | success (msg : String)
  | apiError (overloaded : Bool)
  deriving Repr, DecidableEq

/-- How the retry loop ends: a message was produced; an exception was
re-raised out of the loop; or the loop exited with `message = None`
(the `raise Exception("Failed to generate report after multiple
retries")` path). -/
inductive RetryResult where
  | ok (msg : String)
  | raised (overloaded : Bool)
  | failedAfterRetries
  deriving Repr, DecidableEq

/-- `max_retries = 3` from the STEP 3 retry loop. -/
def max_retries : ℕ := 3

/-- The `while retry_count < max_retries` loop of
`bulwise_advisory_only.py` (STEP 3 generate). `fuel` is
`max_retries - retry_count`, so the loop guard holds exactly while
`fuel > 0`; `outcomes i` is what the attempt made with
`retry_count = i` does. On success the loop breaks; on an API error it
retries only when the error is an overload and
`retry_count < max_retries - 1`, sleeping `5 * retry_count` seconds
after incrementing `retry_count`; otherwise the exception propagates.
Returns the result, the number of provider calls attempted, and the
list of backoff waits (`wait_time` is a Python int, in seconds, listed
in order). -/
def retryAux : ℕ → ℕ → (ℕ → AttemptOutcome) → RetryResult × ℕ × List ℕ
  | 0, _, _ => (.failedAfterRetries, 0, [])
  | fuel + 1, retry_count, outcomes =>
      match outcomes retry_count with
      | .success m => (.ok m, 1, [])
      | .apiError ov =>
          if ov = true ∧ retry_count < max_retries - 1 then
            let r := retryAux fuel (retry_count + 1) outcomes
            (r.1, r.2.1 + 1, (5 * (retry_count + 1) : ℕ) :: r.2.2)
          else
            (.raised ov, 1, [])

/-- The whole retry loop, entered with `retry_count = 0`. -/
def retryGenerate (outcomes : ℕ → AttemptOutcome) :
    RetryResult × ℕ × List ℕ :=
  retryAux max_retries 0 outcomes

/-- The quantities `validate_report_quality` measures on the report
text before any score arithmetic happens. The five `has*` flags are
the substring tests `section in report_text` for the five required
sections; `tool_count` and `url_count` are the two `re.findall`
counts; the `Option` fields are `none` when the corresponding `## `
section header is absent from the text, and otherwise carry what the
function inspects inside that section (stripped length of the
Executive Summary; presence of a dollar sign and of the word month in
the Financial Analysis; the `Phase \d+` count in the roadmap; whether
the Risk Assessment mentions mitigation). A section header occurring
in the text implies the substring test succeeds, but no claim below
needs that, so the fields are kept independent — the score bounds hold
for every combination. -/
structure ReportAnalysis where
  hasExecSummary : Bool
  hasStrategicRecs : Bool
  hasRoadmap : Bool
  hasFinancial : Bool
  hasRisk : Bool
  tool_count : ℕ
  url_count : ℕ
  execSection : Option ℕ
  financialSection : Option (Bool × Bool)
  roadmapSection : Option ℕ
  riskSection : Option Bool
  deriving Repr, DecidableEq

/-- The `score -= 15` loop over `required_sections`: 15 points per
missing required section. -/
def missingSectionPenalty (a : ReportAnalysis) (score : ℤ) : ℤ :=
  score - 15 * (((if a.hasExecSummary then 0 else 1)
    + (if a.hasStrategicRecs then 0 else 1)
    + (if a.hasRoadmap then 0 else 1)
    + (if a.hasFinancial then 0 else 1)
    + (if a.hasRisk then 0 else 1) : ℕ) : ℤ)

/-- The tool-recommendation branch: `-20` when no tools are found,
`-5` when fewer than three. -/
def toolPenalty (tool_count : ℕ) (score : ℤ) : ℤ :=
  if tool_count = 0 then score - 20
  else if tool_count < 3 then score - 5
  else score

/-- The missing-URL branch: `-10` when some recommended tool has no
URL. -/
def urlPenalty (tool_count url_count : ℕ) (score : ℤ) : ℤ :=
  if tool_count > 0 ∧ url_count < tool_count then score - 10 else score

/-- The Executive Summary length check: `-5` when the section exists
and its stripped length is under 200. -/
def execPenalty (execSection : Option ℕ) (score : ℤ) : ℤ :=
  match execSection with
  | some len => if len < 200 then score - 5 else score
  | none => score

/-- The Financial Analysis checks: `-10` when no dollar sign appears,
`-5` when the word month does not appear. -/
def financialPenalty (financialSection : Option (Bool × Bool)) (score : ℤ) : ℤ :=
  match financialSection with
  | some p =>
      let s := if p.1 = false then score - 10 else score
      if p.2 = false then s - 5 else s
  | none => score

/-- The Implementation Roadmap check: `-5` when no `Phase n` structure
is found (fewer than three phases only warns, with no deduction). -/
def roadmapPenalty (roadmapSection : Option ℕ) (score : ℤ) : ℤ :=
  match roadmapSection with
  | some phase_count => if phase_count = 0 then score - 5 else score
  | none => score

/-- The Risk Assessment check: `-5` when mitigation is never
mentioned. -/
def riskPenalty (riskSection : Option Bool) (score : ℤ) : ℤ :=
  match riskSection with
  | some hasMitigation => if hasMitigation = false then score - 5 else score
  | none => score

/-- The score computation of `validate_report_quality` from
`bulwise_advisory_only.py`: start at 100, apply each deduction in
source order, and clamp at 0 (`score = max(0, score)`) before
returning. -/
def validate_report_quality (a : ReportAnalysis) : ℤ :=
  max 0
    (riskPenalty a.riskSection
      (roadmapPenalty a.roadmapSection
        (financialPenalty a.financialSection
          (execPenalty a.execSection
            (urlPenalty a.tool_count a.url_count
              (toolPenalty a.tool_count
                (missingSectionPenalty a 100)))))))

end Bulwise

namespace App

/-- The record `load_cost_data` returns always carries the current
month as its month key: either the stored record already had it, or
the rollover branch produced a fresh record keyed by it. -/
theorem load_cost_data_month (fs : FileState) (m : String) :
    (load_cost_data fs m).month = m := by
  cases fs with
  | none => rfl
  | some data =>
      by_cases h : data.month = m <;> simp [load_cost_data, h]

/-- Reading the ledger right after `log_request` yields the record
`log_request` wrote: current month, previous total plus the new cost,
previous log extended by the new entry. -/
theorem load_after_log (fs : FileState) (m : String) (i o : ℕ) (c : ℚ)
    (ts : String) :
    load_cost_data (log_request fs m i o c ts).2 m
      = { month := m,
          total_cost := (load_cost_data fs m).total_cost + c,
          requests := (load_cost_data fs m).requests
            ++ [{ timestamp := ts, input_tokens := i, output_tokens := o,
                  cost := c }] } := by
  cases fs with
  | none => simp [log_request, save_cost_data, load_cost_data]
  | some data =>
      by_cases h : data.month = m <;>
        simp [log_request, save_cost_data, load_cost_data, h]

/-- Folding a sequence of recorded requests over the ledger adds
exactly the sum of their costs to the total of the current month. -/
theorem recordSeq_total (m : String) (L : List (ℕ × ℕ × ℚ × String)) :
    ∀ fs : FileState,
      (load_cost_data (recordSeq fs m L) m).total_cost
        = (load_cost_data fs m).total_cost
            + (L.map fun q => q.2.2.1).sum := by
  induction L with
  | nil => intro fs; simp [recordSeq]
  | cons q L ih =>
      intro fs
      have hstep :
          recordSeq fs m (q :: L)
            = recordSeq (log_request fs m q.1 q.2.1 q.2.2.1 q.2.2.2).2 m L :=
        rfl
      rw [hstep, ih, load_after_log]
      simp
      ring

/-- Claim C4: `check_budget` returns `true` iff the current-month
`total_cost` is strictly below `MONTHLY_BUDGET_CAP` (equivalently, it
returns `false` iff the total is at or above the cap); at the boundary,
a stored total of `cap - 0.0001` for the current month yields `true`
and a stored total of exactly `cap` yields `false`. -/
theorem check_budget_correct (fs : FileState) (m : String) :
    (check_budget fs m = true ↔
      (load_cost_data fs m).total_cost < MONTHLY_BUDGET_CAP)
    ∧ (check_budget fs m = false ↔
      MONTHLY_BUDGET_CAP ≤ (load_cost_data fs m).total_cost)
    ∧ check_budget
        (some { month := m, total_cost := MONTHLY_BUDGET_CAP - 1 / 10000,
                requests := [] }) m = true
    ∧ check_budget
        (some { month := m, total_cost := MONTHLY_BUDGET_CAP,
                requests := [] }) m = false := by
  refine ⟨by simp [check_budget], by simp [check_budget, not_lt], ?_, ?_⟩
  · simp [check_budget, load_cost_data, MONTHLY_BUDGET_CAP]
  · simp [check_budget, load_cost_data]

/-- Claim C9: `calculate_cost` equals
`(input_tokens / 1000) * 0.003 + (output_tokens / 1000) * 0.015`, the
the formula of the spec with the configured per-1000-token rates, for all token
counts; it is a pure function of its two arguments. -/
theorem calculate_cost_formula (input_tokens output_tokens : ℕ) :
    calculate_cost input_tokens output_tokens
      = ((input_tokens : ℚ) / 1000) * (0.003 : ℚ)
        + ((output_tokens : ℚ) / 1000) * (0.015 : ℚ) := by
  unfold calculate_cost COST_PER_1K_INPUT_TOKENS COST_PER_1K_OUTPUT_TOKENS
  norm_num

/-- Counterexample to claim C1: reading a ledger stored as month
`2025-01` with total 10 while the wall-clock month is `2025-02` does
yield the zeroed current-month record, but the durable file afterwards
still holds the stale `2025-01` record with total 10 — `load_cost_data`
performs no write, so the reset is not persisted by the read. -/
theorem rollover_reset_not_persisted :
    (load_cost_data_op
        (some { month := "2025-01", total_cost := 10, requests := [] })
        "2025-02").1.total_cost = 0
    ∧ (load_cost_data_op
        (some { month := "2025-01", total_cost := 10, requests := [] })
        "2025-02").1.month = "2025-02"
    ∧ (load_cost_data_op
        (some { month := "2025-01", total_cost := 10, requests := [] })
        "2025-02").2
      = some { month := "2025-01", total_cost := 10, requests := [] } := by
  decide

/-- Claim C1 (amended): when the stored month key differs from the
current month (or no record exists), any read of the ledger yields a
record with `total_cost = 0`, an empty request log, and the current
month as month key, and the read leaves the durable file unchanged;
the reset reaches durable storage only at the next write — recording a
request persists a current-month record containing just that
request. -/
theorem rollover_read_amended (fs : FileState) (m : String)
    (h : ∀ r, fs = some r → r.month ≠ m) :
    (load_cost_data_op fs m).1
        = { month := m, total_cost := 0, requests := [] }
    ∧ (load_cost_data_op fs m).2 = fs
    ∧ ∀ (i o : ℕ) (c : ℚ) (ts : String),
        (log_request fs m i o c ts).2
          = some { month := m, total_cost := c,
                   requests := [{ timestamp := ts, input_tokens := i,
                                  output_tokens := o, cost := c }] } := by
  have hload : load_cost_data fs m
      = { month := m, total_cost := 0, requests := [] } := by
    cases fs with
    | none => rfl
    | some data => simp [load_cost_data, h data rfl]
  refine ⟨by simp [load_cost_data_op, hload], rfl, ?_⟩
  intro i o c ts
  simp [log_request, save_cost_data, hload]

/-- Witness for the amended claim C1 at the example of the spec: stored
month `2025-01` with total 10, read in `2025-02`. -/
theorem rollover_read_amended_witness :
    (load_cost_data_op
        (some { month := "2025-01", total_cost := 10, requests := [] })
        "2025-02").1
      = { month := "2025-02", total_cost := 0, requests := [] }
    ∧ (load_cost_data_op
        (some { month := "2025-01", total_cost := 10, requests := [] })
        "2025-02").2
      = some { month := "2025-01", total_cost := 10, requests := [] } :=
  ⟨(rollover_read_amended
      (some { month := "2025-01", total_cost := 10, requests := [] })
      "2025-02" (fun r hr => by cases hr; decide)).1,
   (rollover_read_amended
      (some { month := "2025-01", total_cost := 10, requests := [] })
      "2025-02" (fun r hr => by cases hr; decide)).2.1⟩

/-- Claim C5, evaluated at the failing input: the ledger holds 1.00
for the current month, the provider call completes with token usage
(100 in, 200 out) but an empty content list, so
`message.content[0].text` raises before `log_request` runs — the
handler answers the generic 500 and the ledger is unchanged: the spend
of `calculate_cost 100 200` is silently dropped although the call
reached the provider. -/
theorem cost_dropped_when_extraction_fails :
    generate_report { query := "automate customer support", context := [] }
        (some { month := "2025-02", total_cost := 1, requests := [] })
        "2025-02"
        (.success { content := [],
                    usage := { input_tokens := 100, output_tokens := 200 } })
        "t"
      = (.unexpectedError,
         some { month := "2025-02", total_cost := 1, requests := [] },
         true) := by
  decide

/-- Claim C2: `log_request` appends exactly one log entry, increments
`total_cost` by exactly the given cost, persists the updated record
(the new file state is `save_cost_data` of it), and returns the updated
total; consequently, starting from any state in which the ledger rolls
over (no stored record, or a stored month different from the current
one), after any sequence of recorded requests the current-month
`total_cost` equals the sum of their recorded costs. -/
theorem recordRequest_spec :
    (∀ (fs : FileState) (m : String) (i o : ℕ) (c : ℚ) (ts : String),
      (log_request fs m i o c ts).1
          = (load_cost_data fs m).total_cost + c
      ∧ (log_request fs m i o c ts).2
          = save_cost_data
              { month := m,
                total_cost := (load_cost_data fs m).total_cost + c,
                requests := (load_cost_data fs m).requests
                  ++ [{ timestamp := ts, input_tokens := i,
                        output_tokens := o, cost := c }] })
    ∧ ∀ (fs : FileState) (m : String) (L : List (ℕ × ℕ × ℚ × String)),
        (∀ r, fs = some r → r.month ≠ m) →
        (load_cost_data (recordSeq fs m L) m).total_cost
          = (L.map fun q => q.2.2.1).sum := by
  constructor
  · intro fs m i o c ts
    have hm := load_cost_data_month fs m
    exact ⟨rfl, by simp [log_request, save_cost_data, hm]⟩
  · intro fs m L h
    have h0 : (load_cost_data fs m).total_cost = 0 := by
      cases fs with
      | none => rfl
      | some r => simp [load_cost_data, h r rfl]
    rw [recordSeq_total m L fs, h0, zero_add]

/-- Witness for claim C2: from a nonexistent file, recording two
requests with costs 1 and 2 in month `2025-02` leaves the monthly
total at the sum of the two costs. -/
theorem recordRequest_spec_witness :
    (load_cost_data
        (recordSeq none "2025-02" [(1, 2, 1, "t"), (3, 4, 2, "u")])
        "2025-02").total_cost
      = (([(1, 2, (1 : ℚ), "t"), (3, 4, 2, "u")]).map fun q => q.2.2.1).sum :=
  recordRequest_spec.2 none "2025-02" [(1, 2, 1, "t"), (3, 4, 2, "u")]
    (fun _ hr => Option.noConfusion hr)

/-- The model of the Python `strip` yields the empty string exactly when
the whole string is whitespace. -/
theorem pyStrip_eq_empty_iff (s : String) :
    pyStrip s = "" ↔ ∀ c ∈ s.data, c.isWhitespace = true := by
  constructor
  · intro h
    have h' :
        ((s.data.dropWhile Char.isWhitespace).reverse.dropWhile
          Char.isWhitespace).reverse = [] :=
      congrArg String.data h
    rw [List.reverse_eq_nil_iff, List.dropWhile_eq_nil_iff] at h'
    intro c hc
    rw [← List.takeWhile_append_dropWhile (p := Char.isWhitespace)
      (l := s.data)] at hc
    rcases List.mem_append.mp hc with hc | hc
    · exact List.mem_takeWhile_imp hc
    · exact h' c (List.mem_reverse.mpr hc)
  · intro h
    have h1 : s.data.dropWhile Char.isWhitespace = [] :=
      List.dropWhile_eq_nil_iff.mpr h
    simp [pyStrip, h1]

/-- Claim C6: `validate_input` accepts exactly when the query length
is at most `MAX_QUERY_LENGTH`, the length of every context field is at most
`MAX_CONTEXT_LENGTH`, and the query contains at least one
non-whitespace character; it returns a reason exactly when it
rejects. -/
theorem validate_input_correct (d : AdvisoryRequest) :
    ((validate_input d).1 = true ↔
      (d.query.length ≤ MAX_QUERY_LENGTH
        ∧ (∀ kv ∈ d.context, kv.2.length ≤ MAX_CONTEXT_LENGTH)
        ∧ ∃ c ∈ d.query.data, c.isWhitespace = false))
    ∧ (validate_input d).2.isSome = ! (validate_input d).1 := by
  by_cases hq : d.query.length > MAX_QUERY_LENGTH
  · constructor
    · simp only [validate_input, if_pos hq]
      constructor
      · intro h; cases h
      · rintro ⟨h, -, -⟩; omega
    · simp [validate_input, if_pos hq]
  · cases hf : d.context.find?
        (fun kv => decide (kv.2.length > MAX_CONTEXT_LENGTH)) with
    | some kv =>
        have hmem := List.mem_of_find?_eq_some hf
        have hlong : kv.2.length > MAX_CONTEXT_LENGTH := by
          simpa using List.find?_some hf
        constructor
        · simp only [validate_input, if_neg hq, hf]
          constructor
          · intro h; cases h
          · rintro ⟨-, hall, -⟩
            exact absurd (hall kv hmem) (by omega)
        · simp [validate_input, if_neg hq, hf]
    | none =>
        have hall : ∀ kv ∈ d.context, kv.2.length ≤ MAX_CONTEXT_LENGTH := by
          intro kv hkv
          have := List.find?_eq_none.mp hf kv hkv
          simpa using this
        by_cases hs : pyStrip d.query = ""
        · have hws : ∀ c ∈ d.query.data, c.isWhitespace = true :=
            (pyStrip_eq_empty_iff d.query).mp hs
          constructor
          · simp only [validate_input, if_neg hq, hf, if_pos hs]
            constructor
            · intro h; cases h
            · rintro ⟨-, -, c, hc, hcw⟩
              rw [hws c hc] at hcw
              cases hcw
          · simp [validate_input, if_neg hq, hf, if_pos hs]
        · have hex : ∃ c ∈ d.query.data, c.isWhitespace = false := by
            by_contra hno
            push_neg at hno
            exact hs ((pyStrip_eq_empty_iff d.query).mpr
              (fun c hc => by
                have := hno c hc
                cases h : c.isWhitespace with
                | true => rfl
                | false => exact absurd h this))
          constructor
          · simp only [validate_input, if_neg hq, hf, if_neg hs]
            exact ⟨fun _ => ⟨by omega, hall, hex⟩, fun _ => trivial⟩
          · simp [validate_input, if_neg hq, hf, if_neg hs]

/-- Claim C3: a generate request that fails validation is answered
with the 400 validation error carrying the reason of the validator, and a
request for which the budget gate reports the cap reached is answered
with the 503 budget error; in both cases the provider is not invoked
and the cost-tracking file is unchanged. -/
theorem reject_before_spend (d : AdvisoryRequest) (fs : FileState)
    (m ts : String) (p : ProviderOutcome) :
    ((validate_input d).1 = false →
      generate_report d fs m p ts
        = (.validationError ((validate_input d).2.getD ""), fs, false)
      ∧ (generate_report d fs m p ts).1.status = 400)
    ∧ ((validate_input d).1 = true → check_budget fs m = false →
      generate_report d fs m p ts = (.budgetError, fs, false)
      ∧ (generate_report d fs m p ts).1.status = 503) := by
  constructor
  · intro h
    constructor
    · simp [generate_report, h]
    · simp [generate_report, h, GenResponse.status]
  · intro h1 h2
    constructor
    · simp [generate_report, h1, h2]
    · simp [generate_report, h1, h2, GenResponse.status]

/-- Witness for claim C3: a whitespace-only query is rejected with the
reason of the validator and no state change, and with a ledger already at
the 50.00 cap a valid query is rejected with the budget error and no
state change; the provider-invoked flag is `false` in both runs. -/
theorem reject_before_spend_witness :
    generate_report { query := "", context := [] } none "2025-02"
        .rateLimitError "t"
      = (.validationError "Query cannot be empty.", none, false)
    ∧ generate_report { query := "hi", context := [] }
        (some { month := "2025-02", total_cost := 50, requests := [] })
        "2025-02" .rateLimitError "t"
      = (.budgetError,
         some { month := "2025-02", total_cost := 50, requests := [] },
         false) := by
  constructor
  · exact ((reject_before_spend { query := "", context := [] } none
      "2025-02" "t" .rateLimitError).1 (by decide)).1.trans (by decide)
  · exact ((reject_before_spend { query := "hi", context := [] }
      (some { month := "2025-02", total_cost := 50, requests := [] })
      "2025-02" "t" .rateLimitError).2 (by decide) (by decide)).1

end App

namespace Bulwise

/-- Each missing required section only lowers the score. -/
theorem missingSectionPenalty_le (a : ReportAnalysis) (s : ℤ) :
    missingSectionPenalty a s ≤ s := by
  unfold missingSectionPenalty
  omega

/-- The tool-count deduction only lowers the score. -/
theorem toolPenalty_le (tool_count : ℕ) (s : ℤ) :
    toolPenalty tool_count s ≤ s := by
  unfold toolPenalty
  split <;> [omega; split <;> omega]

/-- The missing-URL deduction only lowers the score. -/
theorem urlPenalty_le (tool_count url_count : ℕ) (s : ℤ) :
    urlPenalty tool_count url_count s ≤ s := by
  unfold urlPenalty
  split <;> omega

/-- The Executive Summary deduction only lowers the score. -/
theorem execPenalty_le (x : Option ℕ) (s : ℤ) : execPenalty x s ≤ s := by
  cases x with
  | none => simp [execPenalty]
  | some len =>
      simp only [execPenalty]
      split <;> omega

/-- The Financial Analysis deductions only lower the score. -/
theorem financialPenalty_le (x : Option (Bool × Bool)) (s : ℤ) :
    financialPenalty x s ≤ s := by
  cases x with
  | none => simp [financialPenalty]
  | some p =>
      simp only [financialPenalty]
      split <;> split <;> omega

/-- The roadmap deduction only lowers the score. -/
theorem roadmapPenalty_le (x : Option ℕ) (s : ℤ) :
    roadmapPenalty x s ≤ s := by
  cases x with
  | none => simp [roadmapPenalty]
  | some phase_count =>
      simp only [roadmapPenalty]
      split <;> omega

/-- The risk-mitigation deduction only lowers the score. -/
theorem riskPenalty_le (x : Option Bool) (s : ℤ) : riskPenalty x s ≤ s := by
  cases x with
  | none => simp [riskPenalty]
  | some hasMitigation =>
      simp only [riskPenalty]
      split <;> omega

/-- Claim C10: for every analysed report the quality score lies
between 0 and 100 inclusive — it starts at 100, every check only
decrements it, and it is clamped at 0 before being returned. -/
theorem report_quality_score_bounds (a : ReportAnalysis) :
    0 ≤ validate_report_quality a ∧ validate_report_quality a ≤ 100 := by
  unfold validate_report_quality
  refine ⟨le_max_left 0 _, max_le (by norm_num) ?_⟩
  exact (riskPenalty_le _ _).trans ((roadmapPenalty_le _ _).trans
    ((financialPenalty_le _ _).trans ((execPenalty_le _ _).trans
      ((urlPenalty_le _ _ _).trans ((toolPenalty_le _ _).trans
        (missingSectionPenalty_le a 100))))))

/-- The retry loop never makes more provider calls than it has fuel
for. -/
theorem retryAux_calls_le (fuel rc : ℕ) (outcomes : ℕ → AttemptOutcome) :
    (retryAux fuel rc outcomes).2.1 ≤ fuel := by
  induction fuel generalizing rc with
  | zero => simp [retryAux]
  | succ n ih =>
      simp only [retryAux]
      cases outcomes rc with
      | success m => simp
      | apiError ov =>
          dsimp only
          split
          · simpa using Nat.succ_le_succ (ih (rc + 1))
          · simp

/-- Every backoff wait recorded from retry count `rc` onwards is at
least `5 * (rc + 1)` seconds, and the wait list is strictly
increasing. -/
theorem retryAux_waits (fuel rc : ℕ) (outcomes : ℕ → AttemptOutcome) :
    (∀ w ∈ (retryAux fuel rc outcomes).2.2, 5 * (rc + 1) ≤ w)
    ∧ List.Chain' (· < ·) (retryAux fuel rc outcomes).2.2 := by
  induction fuel generalizing rc with
  | zero => simp [retryAux]
  | succ n ih =>
      simp only [retryAux]
      cases outcomes rc with
      | success m => simp
      | apiError ov =>
          dsimp only
          split
          · obtain ⟨ihlb, ihch⟩ := ih (rc + 1)
            constructor
            · intro w hw
              rcases List.mem_cons.mp hw with hw | hw
              · omega
              · have := ihlb w hw
                omega
            · refine List.chain'_cons'.mpr ⟨?_, ihch⟩
              intro y hy
              have := ihlb y (List.mem_of_mem_head? hy)
              omega
          · simp

/-- Claim C8: the STEP 3 retry loop makes at most `max_retries = 3`
provider calls with strictly increasing backoff waits; two transient
overload failures followed by a success produce the successful message
after exactly 3 calls with waits of 5 s and 10 s; a first-call success
makes exactly one call; a non-overload error is re-raised immediately
after one call; three overload failures exhaust the bound and the
overload error surfaces after exactly 3 calls. -/
theorem provider_retry (outcomes : ℕ → AttemptOutcome) (msg : String) :
    ((outcomes 0 = .apiError true ∧ outcomes 1 = .apiError true
        ∧ outcomes 2 = .success msg) →
      retryGenerate outcomes = (.ok msg, 3, [5, 10]))
    ∧ (outcomes 0 = .success msg →
      retryGenerate outcomes = (.ok msg, 1, []))
    ∧ (outcomes 0 = .apiError false →
      retryGenerate outcomes = (.raised false, 1, []))
    ∧ ((outcomes 0 = .apiError true ∧ outcomes 1 = .apiError true
        ∧ outcomes 2 = .apiError true) →
      retryGenerate outcomes = (.raised true, 3, [5, 10]))
    ∧ (retryGenerate outcomes).2.1 ≤ max_retries
    ∧ List.Chain' (· < ·) (retryGenerate outcomes).2.2 := by
  refine ⟨?_, ?_, ?_, ?_,
    retryAux_calls_le max_retries 0 outcomes,
    (retryAux_waits max_retries 0 outcomes).2⟩
  · rintro ⟨h0, h1, h2⟩
    simp [retryGenerate, retryAux, max_retries, h0, h1, h2]
  · intro h0
    simp [retryGenerate, retryAux, max_retries, h0]
  · intro h0
    simp [retryGenerate, retryAux, max_retries, h0]
  · rintro ⟨h0, h1, h2⟩
    simp [retryGenerate, retryAux, max_retries, h0, h1, h2]

/-- Witness for claim C8 at a concrete outcome schedule: overload,
overload, then success. -/
theorem provider_retry_witness :
    retryGenerate
        (fun i => if i < 2 then .apiError true else .success "report")
      = (.ok "report", 3, [5, 10]) :=
  (provider_retry
      (fun i => if i < 2 then .apiError true else .success "report")
      "report").1 ⟨rfl, rfl, rfl⟩

end Bulwise

namespace Bulwise

/-- Claim C7: with the ceiling of `MAX_QUERIES_PER_MONTH = 3` per
window, starting from a fresh session, the 1st through 3rd requests of
a window are allowed, the 4th (still inside the window, checked
against the stored window start) is denied with a count of 3, and the
first request after the window expires is allowed again: the rollover
check on that access finds the current time past the stored window
start plus 30 days, zeroes the counter, and restarts the window. -/
theorem rate_limit_boundary (t1 t2 t3 t4 t5 : ℤ)
    (hb : t2 ≤ t1 + WINDOW) (hc : t3 ≤ t1 + WINDOW)
    (hd : t4 ≤ t1 + WINDOW) (he : t1 + WINDOW < t5) :
    (rateLimitRun [t1, t2, t3, t4, t5] none).1
      = [true, true, true, false, true]
    ∧ (check_rate_limit t1 none).1.2.1 = 0
    ∧ (check_rate_limit t4 (some { count := 3, reset_date := t1 })).1.2.1 = 3
    ∧ (check_rate_limit t5 (some { count := 3, reset_date := t1 })).1.2.1 = 0
    ∧ (rateLimitRun [t1, t2, t3, t4, t5] none).2
      = some { count := 1, reset_date := t5 } := by
  have hw : ∀ t : ℤ, ¬ (t > t + WINDOW) := by
    intro t
    simp only [WINDOW]
    omega
  have n2 : ¬ (t2 > t1 + WINDOW) := not_lt.mpr hb
  have n3 : ¬ (t3 > t1 + WINDOW) := not_lt.mpr hc
  have n4 : ¬ (t4 > t1 + WINDOW) := not_lt.mpr hd
  have e1 : rateLimitStep t1 none = (true, some ⟨1, t1⟩) := by
    simp [rateLimitStep, check_rate_limit, increment_usage, get_usage_data,
      MAX_QUERIES_PER_MONTH, hw t1]
  have e2 : rateLimitStep t2 (some ⟨1, t1⟩) = (true, some ⟨2, t1⟩) := by
    simp [rateLimitStep, check_rate_limit, increment_usage, get_usage_data,
      MAX_QUERIES_PER_MONTH, n2]
  have e3 : rateLimitStep t3 (some ⟨2, t1⟩) = (true, some ⟨3, t1⟩) := by
    simp [rateLimitStep, check_rate_limit, increment_usage, get_usage_data,
      MAX_QUERIES_PER_MONTH, n3]
  have e4 : rateLimitStep t4 (some ⟨3, t1⟩) = (false, some ⟨3, t1⟩) := by
    simp [rateLimitStep, check_rate_limit, increment_usage, get_usage_data,
      MAX_QUERIES_PER_MONTH, n4]
  have e5 : rateLimitStep t5 (some ⟨3, t1⟩) = (true, some ⟨1, t5⟩) := by
    simp [rateLimitStep, check_rate_limit, increment_usage, get_usage_data,
      MAX_QUERIES_PER_MONTH, he, hw t5]
  refine ⟨?_, ?_, ?_, ?_, ?_⟩
  · simp [rateLimitRun, e1, e2, e3, e4, e5]
  · simp [check_rate_limit, get_usage_data, hw t1]
  · simp [check_rate_limit, get_usage_data, n4]
  · simp [check_rate_limit, get_usage_data, he]
  · simp [rateLimitRun, e1, e2, e3, e4, e5]

/-- Witness for claim C7: five requests at seconds 0, 1, 2, 3 and
2592001 (just past the 30-day window). -/
theorem rate_limit_boundary_witness :
    (rateLimitRun [0, 1, 2, 3, 2592001] none).1
      = [true, true, true, false, true]
    ∧ (check_rate_limit 0 none).1.2.1 = 0
    ∧ (check_rate_limit 3 (some { count := 3, reset_date := 0 })).1.2.1 = 3
    ∧ (check_rate_limit 2592001
        (some { count := 3, reset_date := 0 })).1.2.1 = 0
    ∧ (rateLimitRun [0, 1, 2, 3, 2592001] none).2
      = some { count := 1, reset_date := 2592001 } :=
  rate_limit_boundary 0 1 2 3 2592001 (by decide) (by decide) (by decide)
    (by decide)

end Bulwise
